import Mathlib

/-!
Shallow embedding of the license-verification core of the apiHub repository:
the `/verify`, `/release-device` and admin subscription-override handlers of
`src/server.js`, and the Supabase edge function `handleVerify` shipped in
`src/database_schema.sql` (lines 274-409 of that file).

Timestamps are modelled as integer seconds (JavaScript `Date` arithmetic in
milliseconds scales by a constant factor); "one day" is 86400 seconds and the
calendar-day addition `expiresAt.setDate(expiresAt.getDate() + 1)` is modelled
as `now + 86400`.

The record store is modelled as the joined view the handlers read: one row per
api key carrying its owner, product and subscription.  The schema guarantees
one api key and one subscription per `(user, product)` pair (both tables carry
`UNIQUE(user_id, product_id)` and `key_value` is `UNIQUE`), so the flattened
view keyed by `key_value` is faithful: updating "the row with this
subscription id" is updating the subscription component of the row the
handler resolved.
-/

inductive SubStatus
  | free
  | trial
  | premium
  deriving DecidableEq, Repr

/-- Subscription row: the fields read and written by the core
(`status`, `expires_at`, `trial_used`). -/
structure Subscription where
  status : SubStatus
  expires_at : Option Int
  trial_used : Bool
  deriving DecidableEq, Repr

/-- Product row fields selected by the verify handlers. -/
structure Product where
  name : String
  description : Option String
  is_active : Bool
  trial_enabled : Bool
  duration_days : Nat
  deriving DecidableEq, Repr

/-- User row fields selected by the verify handlers. -/
structure UserRec where
  full_name : Option String
  email : String
  deriving DecidableEq, Repr

/-- One row of the joined view resolved by the key lookup in both verify
implementations: the api key row together with its user, product and
subscription. -/
structure KeyRecord where
  key_value : String
  device_id : Option String
  user : UserRec
  product : Product
  subscription : Subscription
  deriving DecidableEq, Repr

/-- The record store: the list of joined rows. -/
structure Store where
  keys : List KeyRecord
  deriving DecidableEq, Repr

/-- The dynamic JSON response of the verify handlers, with one optional field
per key that some branch may set.  `httpStatus` records the HTTP status the
branch uses (200 unless explicitly set). -/
structure VerifyResponse where
  httpStatus : Nat := 200
  valid : Option Bool := none
  error : Option String := none
  user : Option String := none
  product : Option String := none
  active : Option Bool := none
  status : Option String := none
  days_left : Option Int := none
  expires_at : Option Int := none
  device_id : Option String := none
  message : Option String := none
  deriving DecidableEq, Repr

/-- Response of the `/release-device` handler. -/
structure ReleaseResponse where
  httpStatus : Nat := 200
  success : Option Bool := none
  error : Option String := none
  message : Option String := none
  deriving DecidableEq, Repr

/-- The `.eq('key_value', api_key).single()` lookup: succeeds exactly when one
row matches (PostgREST `single()` errors on zero rows and on more than one). -/
def findKey (st : Store) (k : String) : Option KeyRecord :=
  match st.keys.filter (fun r => decide (r.key_value = k)) with
  | [r] => some r
  | _ => none

/-- Set the `device_id` column of an api-key row. -/
def setDevice (d : Option String) (r : KeyRecord) : KeyRecord :=
  {r with device_id := d}

/-- Apply an update to the subscription component of a row. -/
def setSub (f : Subscription → Subscription) (r : KeyRecord) : KeyRecord :=
  {r with subscription := f r.subscription}

/-- `update({device_id}).eq(...)` on the row(s) identified by `k`. -/
def updateDeviceFn (st : Store) (k : String) (d : Option String) : Store :=
  ⟨st.keys.map (fun r => if r.key_value = k then setDevice d r else r)⟩

/-- `update({...}).eq('id', subscription.id)` on the subscription of the
row(s) identified by `k`. -/
def updateSubFn (st : Store) (k : String) (f : Subscription → Subscription) : Store :=
  ⟨st.keys.map (fun r => if r.key_value = k then setSub f r else r)⟩

/-- JavaScript numeric coercion used by `expiresAt - now` in server.js:
a `Date` coerces to its epoch value and `null` coerces to `0`. -/
def jsDateNum : Option Int → Int
  | some e => e
  | none => 0

/-- Integer ceiling division (for positive divisor), the exact value of
`Math.ceil(a / b)` on the integral inputs the handlers produce. -/
def intCeilDiv (a b : Int) : Int := -((-a).fdiv b)

/-- `user.full_name || user.email`: JavaScript `||` falls through on the
falsy values `null` and `""`. -/
def displayName (u : UserRec) : String :=
  match u.full_name with
  | some n => if n = "" then u.email else n
  | none => u.email

/-- The subscription status string stored in the database enum and echoed in
responses. -/
def statusStr : SubStatus → String
  | .free => "free"
  | .trial => "trial"
  | .premium => "premium"

/-- The guard `expiresAt && expiresAt < now` of the auto-revert branch. -/
def isExpired (expiresAt : Option Int) (now : Int) : Bool :=
  match expiresAt with
  | some e => e < now
  | none => false

/-- The trial-activation write (server.js lines 113-120): set
`status = 'trial'`, `expires_at = now + 1 day`, `trial_used = true`. -/
def trialActivatedSub (now : Int) (s : Subscription) : Subscription :=
  {s with status := .trial, expires_at := some (now + 86400), trial_used := true}

/-- The expiry-reversion write (server.js lines 141-147): set
`status = 'free'`, `expires_at = null`. -/
def revertedSub (s : Subscription) : Subscription :=
  {s with status := .free, expires_at := none}

/-- The trial-activation response (server.js lines 122-131, identical in the
edge function). -/
def trialResponse (now : Int) (keyData : KeyRecord) (device_id : String) : VerifyResponse :=
  {valid := some true, user := some (displayName keyData.user),
   product := some keyData.product.name, status := some "trial",
   days_left := some 1, expires_at := some (now + 86400),
   device_id := some device_id,
   message := some "Trial activated! You have 1 day of premium access."}

/-- The base of the steady-state response (server.js lines 151-157, identical
in the edge function). -/
def steadyBase (user : UserRec) (product : Product) (subscription : Subscription)
    (device_id : String) : VerifyResponse :=
  {valid := some true, user := some (displayName user),
   product := some product.name, status := some (statusStr subscription.status),
   device_id := some device_id}

/-- Steady-state response assembly of server.js (lines 150-169).  `expiresAt`
is the local variable captured from the subscription before any reversion;
`subscription` is the (possibly locally reverted) record.  The `days_left`
subtraction `(expiresAt - now)` uses JavaScript coercion, so a `null`
`expiresAt` contributes `0`. -/
def steadyResponse (now : Int) (user : UserRec) (product : Product)
    (subscription : Subscription) (expiresAt : Option Int) (device_id : String) :
    VerifyResponse :=
  let base := steadyBase user product subscription device_id
  let withDays :=
    if subscription.status = .premium ∨ subscription.status = .trial then
      {base with
        days_left := some (max 0 (intCeilDiv (jsDateNum expiresAt - now) 86400))
        expires_at := subscription.expires_at}
    else base
  if subscription.status = .free ∧ product.trial_enabled = false then
    {withDays with message := some "Trial not available for this product."}
  else withDays

/-- Trial and expiry handling of server.js (lines 107-169), entered after the
kill-switch and device checks passed.  `keyData` is the row as read before
any binding write; `api_key` identifies the row being updated. -/
def serverVerifyCore (now : Int) (st : Store) (keyData : KeyRecord)
    (api_key device_id : String) : VerifyResponse × Store :=
  if keyData.subscription.status = .free ∧ keyData.product.trial_enabled = true ∧
      keyData.subscription.trial_used = false then
    (trialResponse now keyData device_id,
     updateSubFn st api_key (trialActivatedSub now))
  else
    if (keyData.subscription.status = .trial ∨ keyData.subscription.status = .premium) ∧
        isExpired keyData.subscription.expires_at now = true then
      (steadyResponse now keyData.user keyData.product (revertedSub keyData.subscription)
        keyData.subscription.expires_at device_id,
       updateSubFn st api_key revertedSub)
    else
      (steadyResponse now keyData.user keyData.product keyData.subscription
        keyData.subscription.expires_at device_id, st)

/-- The Express `/verify` handler (server.js lines 49-178). -/
def serverVerify (now : Int) (st : Store) (api_key device_id : String) :
    VerifyResponse × Store :=
  if api_key = "" ∨ device_id = "" then
    ({httpStatus := 400, valid := some false,
      error := some "api_key and device_id are required"}, st)
  else
    match findKey st api_key with
    | none => ({valid := some false, error := some "Invalid API key"}, st)
    | some keyData =>
      if keyData.product.is_active = false then
        ({valid := some false, product := some keyData.product.name, active := some false,
          message := some "This product is no longer available."}, st)
      else
        match keyData.device_id with
        | none =>
          serverVerifyCore now (updateDeviceFn st api_key (some device_id)) keyData
            api_key device_id
        | some d =>
          if d = device_id then
            serverVerifyCore now st keyData api_key device_id
          else
            ({valid := some false, error := some "API key is bound to a different device",
              message := some "Use /release-device to unbind this key first."}, st)

/-- Steady-state response assembly of the edge function (database_schema.sql
lines 387-403).  It computes `expiresAt!.getTime()`, which throws a
`TypeError` when `expiresAt` is `null`; a thrown response is `none`. -/
def edgeSteadyResponse (now : Int) (user : UserRec) (product : Product)
    (subscription : Subscription) (expiresAt : Option Int) (device_id : String) :
    Option VerifyResponse :=
  let base := steadyBase user product subscription device_id
  let withDays :=
    if subscription.status = .premium ∨ subscription.status = .trial then
      match expiresAt with
      | none => none
      | some e =>
        some {base with
               days_left := some (max 0 (intCeilDiv (e - now) 86400))
               expires_at := subscription.expires_at}
    else some base
  match withDays with
  | none => none
  | some resp =>
    if subscription.status = .free ∧ product.trial_enabled = false then
      some {resp with message := some "Trial not available for this product."}
    else some resp

/-- Trial and expiry handling of the edge function (database_schema.sql lines
342-408). -/
def edgeVerifyCore (now : Int) (st : Store) (keyData : KeyRecord)
    (api_key device_id : String) : Option VerifyResponse × Store :=
  if keyData.subscription.status = .free ∧ keyData.product.trial_enabled = true ∧
      keyData.subscription.trial_used = false then
    (some (trialResponse now keyData device_id),
     updateSubFn st api_key (trialActivatedSub now))
  else
    if (keyData.subscription.status = .trial ∨ keyData.subscription.status = .premium) ∧
        isExpired keyData.subscription.expires_at now = true then
      (edgeSteadyResponse now keyData.user keyData.product (revertedSub keyData.subscription)
        keyData.subscription.expires_at device_id,
       updateSubFn st api_key revertedSub)
    else
      (edgeSteadyResponse now keyData.user keyData.product keyData.subscription
        keyData.subscription.expires_at device_id, st)

/-- The edge-function `handleVerify` (database_schema.sql lines 274-409).
`none` in the response component models an uncaught exception. -/
def edgeHandleVerify (now : Int) (st : Store) (api_key device_id : String) :
    Option VerifyResponse × Store :=
  if api_key = "" ∨ device_id = "" then
    (some {httpStatus := 400
           valid := some false
           error := some "api_key and device_id are required"}, st)
  else
    match findKey st api_key with
    | none => (some {valid := some false, error := some "Invalid API key"}, st)
    | some keyData =>
      if keyData.product.is_active = false then
        (some {valid := some false
               product := some keyData.product.name
               active := some false
               message := some "This product is no longer available."}, st)
      else
        match keyData.device_id with
        | none =>
          edgeVerifyCore now (updateDeviceFn st api_key (some device_id)) keyData
            api_key device_id
        | some d =>
          if d = device_id then
            edgeVerifyCore now st keyData api_key device_id
          else
            (some {valid := some false
                   error := some "API key is bound to a different device"
                   message := some "Use /release-device to unbind this key first."}, st)

/-- The edge function as served: `serve`'s try/catch turns a thrown exception
into a 500 "Internal server error" response (database_schema.sql lines
266-271). -/
def edgeServe (now : Int) (st : Store) (api_key device_id : String) :
    VerifyResponse × Store :=
  match edgeHandleVerify now st api_key device_id with
  | (some r, st2) => (r, st2)
  | (none, st2) => ({httpStatus := 500, error := some "Internal server error"}, st2)

/-- The `/release-device` handler (server.js lines 180-209): an unconditional
`update({device_id: null})` on the rows matching `key_value`, followed by
`.select().single()`, which reports 404 unless exactly one row was updated. -/
def releaseDevice (st : Store) (api_key : String) : ReleaseResponse × Store :=
  if api_key = "" then
    ({httpStatus := 400, error := some "api_key is required"}, st)
  else
    let st2 := updateDeviceFn st api_key none
    match st.keys.filter (fun r => decide (r.key_value = api_key)) with
    | [_] => ({success := some true
               message := some "Device binding released successfully"}, st2)
    | _ => ({httpStatus := 404, error := some "API key not found"}, st2)

/-- JavaScript truthiness of the `days` request field as used in
`status === 'premium' && days` (0, null and undefined are falsy). -/
def daysTruthy : Option Int → Bool
  | some d => d ≠ 0
  | none => false

/-- The `updateData` applied by the admin subscription override
(server.js lines 325-347): always sets `status`; sets
`expires_at = now + days` when status is `premium` and `days` is truthy;
sets `expires_at = null` when status is `free`; otherwise leaves
`expires_at` untouched. -/
def adminUpdatedSub (now : Int) (status : SubStatus) (days : Option Int)
    (s : Subscription) : Subscription :=
  if status = .premium ∧ daysTruthy days = true then
    {s with status := status, expires_at := some (now + 86400 * days.getD 0)}
  else if status = .free then
    {s with status := status, expires_at := none}
  else
    {s with status := status}

/-- The `ensure_subscription` RPC (database_schema.sql lines 211-229): insert
a `free` subscription with default columns if none exists. -/
def ensureSubscription (s : Option Subscription) : Subscription :=
  s.getD {status := .free, expires_at := none, trial_used := false}

/-- The `PUT /admin/users/:id/subscription` handler's effect on the targeted
`(user, product)` subscription (server.js lines 320-354). -/
def adminOverride (now : Int) (status : SubStatus) (days : Option Int)
    (s : Option Subscription) : Subscription :=
  adminUpdatedSub now status days (ensureSubscription s)

/-- The spec invariant on a subscription row: `free` rows carry no expiry,
`trial`/`premium` rows carry one. -/
def SubInv (s : Subscription) : Prop :=
  (s.status = .free → s.expires_at = none) ∧
  (s.status = .trial ∨ s.status = .premium → s.expires_at ≠ none)

/-- Outcome a verifying client reports for the device-binding step. -/
inductive BindOutcome
  | bound (d : String)
  | conflict
  deriving DecidableEq, Repr

/-- The decision a verify request takes from its read of `keyData.device_id`
(server.js lines 91-105): when absent, report bound and issue a write; when
present and different, report conflict; otherwise report bound with no
write.  The `Bool` says whether a write is issued. -/
def bindPlan (observed : Option String) (presented : String) : BindOutcome × Bool :=
  match observed with
  | none => (.bound presented, true)
  | some d => if d = presented then (.bound d, false) else (.conflict, false)

/-- The binding write as issued by the code: `update({device_id}).eq('id',
keyData.id)` is conditioned only on the row id, so when issued it overwrites
whatever `device_id` currently holds. -/
def bindApply (issue : Bool) (presented : String) (st : Option String) : Option String :=
  if issue then some presented else st

/-- Two concurrent verify requests for the same key, devices `dA` and `dB`,
interleaved so that both read `device_id` before either write lands (the
read and the write are separate store operations in the code).  Returns the
outcome each client reports and the final stored `device_id`. -/
def racedBind (init : Option String) (dA dB : String) :
    BindOutcome × BindOutcome × Option String :=
  let obsA := init
  let obsB := init
  let pA := bindPlan obsA dA
  let s1 := bindApply pA.2 dA init
  let pB := bindPlan obsB dB
  let s2 := bindApply pB.2 dB s1
  (pA.1, pB.1, s2)

/-! ### Store lemmas -/

theorem filter_map_keyfix (l : List KeyRecord) (k : String) (g : KeyRecord → KeyRecord)
    (hg : ∀ r, (g r).key_value = r.key_value) :
    (l.map g).filter (fun r => decide (r.key_value = k)) =
      (l.filter (fun r => decide (r.key_value = k))).map g := by
  induction l with
  | nil => rfl
  | cons a t ih =>
    by_cases h : a.key_value = k
    · simp [List.filter_cons, hg a, h, ih]
    · simp [List.filter_cons, hg a, h, ih]

theorem findKey_map_keyfix (st : Store) (k : String) (g : KeyRecord → KeyRecord)
    (hg : ∀ r, (g r).key_value = r.key_value) :
    findKey ⟨st.keys.map g⟩ k = (findKey st k).map g := by
  unfold findKey
  rw [show (Store.mk (st.keys.map g)).keys = st.keys.map g from rfl,
    filter_map_keyfix st.keys k g hg]
  cases st.keys.filter (fun r => decide (r.key_value = k)) with
  | nil => rfl
  | cons a t =>
    cases t with
    | nil => rfl
    | cons b t2 => rfl

theorem findKey_key (st : Store) (k : String) (r : KeyRecord)
    (h : findKey st k = some r) : r.key_value = k := by
  unfold findKey at h
  cases hfk : st.keys.filter (fun x => decide (x.key_value = k)) with
  | nil => rw [hfk] at h; cases h
  | cons a t =>
    cases t with
    | nil =>
      rw [hfk] at h
      have ha : a ∈ st.keys.filter (fun x => decide (x.key_value = k)) := by
        rw [hfk]; exact List.mem_singleton.mpr rfl
      have := (List.mem_filter.mp ha).2
      have hak : a.key_value = k := of_decide_eq_true this
      cases h
      exact hak
    | cons b t2 => rw [hfk] at h; cases h

theorem findKey_mem (st : Store) (k : String) (r : KeyRecord)
    (h : findKey st k = some r) : r ∈ st.keys := by
  unfold findKey at h
  cases hfk : st.keys.filter (fun x => decide (x.key_value = k)) with
  | nil => rw [hfk] at h; cases h
  | cons a t =>
    cases t with
    | nil =>
      rw [hfk] at h
      have ha : a ∈ st.keys.filter (fun x => decide (x.key_value = k)) := by
        rw [hfk]; exact List.mem_singleton.mpr rfl
      cases h
      exact List.mem_of_mem_filter ha
    | cons b t2 => rw [hfk] at h; cases h

theorem findKey_updateSubFn (st : Store) (k : String) (f : Subscription → Subscription)
    (r : KeyRecord) (h : findKey st k = some r) :
    findKey (updateSubFn st k f) k = some (setSub f r) := by
  have hg : ∀ x : KeyRecord,
      ((fun x => if x.key_value = k then setSub f x else x) x).key_value = x.key_value := by
    intro x
    by_cases hx : x.key_value = k
    · simp [hx, setSub]
    · simp [hx]
  have hmap := findKey_map_keyfix st k (fun x => if x.key_value = k then setSub f x else x) hg
  have hrk : r.key_value = k := findKey_key st k r h
  unfold updateSubFn
  rw [hmap, h]
  simp [hrk]

theorem findKey_updateDeviceFn (st : Store) (k : String) (d : Option String)
    (r : KeyRecord) (h : findKey st k = some r) :
    findKey (updateDeviceFn st k d) k = some (setDevice d r) := by
  have hg : ∀ x : KeyRecord,
      ((fun x => if x.key_value = k then setDevice d x else x) x).key_value = x.key_value := by
    intro x
    by_cases hx : x.key_value = k
    · simp [hx, setDevice]
    · simp [hx]
  have hmap := findKey_map_keyfix st k (fun x => if x.key_value = k then setDevice d x else x) hg
  have hrk : r.key_value = k := findKey_key st k r h
  unfold updateDeviceFn
  rw [hmap, h]
  simp [hrk]

/-- The store component of `serverVerifyCore` is the input store or a
subscription update of the resolved row. -/
theorem serverVerifyCore_snd (now : Int) (st : Store) (keyData : KeyRecord)
    (api_key device_id : String) :
    (serverVerifyCore now st keyData api_key device_id).2 = st ∨
    (serverVerifyCore now st keyData api_key device_id).2 =
      updateSubFn st api_key (trialActivatedSub now) ∨
    (serverVerifyCore now st keyData api_key device_id).2 =
      updateSubFn st api_key revertedSub := by
  unfold serverVerifyCore
  by_cases h1 : keyData.subscription.status = .free ∧ keyData.product.trial_enabled = true ∧
      keyData.subscription.trial_used = false
  · right; left; simp [h1]
  · by_cases h2 : (keyData.subscription.status = .trial ∨
        keyData.subscription.status = .premium) ∧
        isExpired keyData.subscription.expires_at now = true
    · right; right; simp [h1, h2]
    · left; simp [h1, h2]

/-! ### Response lemmas -/

theorem steadyResponse_status (now : Int) (user : UserRec) (product : Product)
    (subscription : Subscription) (expiresAt : Option Int) (device_id : String) :
    (steadyResponse now user product subscription expiresAt device_id).status =
      some (statusStr subscription.status) := by
  unfold steadyResponse steadyBase
  by_cases h1 : subscription.status = .premium ∨ subscription.status = .trial
  · by_cases h2 : subscription.status = .free ∧ product.trial_enabled = false
    · simp [h1, h2]
    · simp [h1, h2]
  · by_cases h2 : subscription.status = .free ∧ product.trial_enabled = false
    · simp [h1, h2]
    · simp [h1, h2]

theorem steadyResponse_valid (now : Int) (user : UserRec) (product : Product)
    (subscription : Subscription) (expiresAt : Option Int) (device_id : String) :
    (steadyResponse now user product subscription expiresAt device_id).valid =
      some true := by
  unfold steadyResponse steadyBase
  by_cases h1 : subscription.status = .premium ∨ subscription.status = .trial
  · by_cases h2 : subscription.status = .free ∧ product.trial_enabled = false
    · simp [h1, h2]
    · simp [h1, h2]
  · by_cases h2 : subscription.status = .free ∧ product.trial_enabled = false
    · simp [h1, h2]
    · simp [h1, h2]

theorem steadyResponse_free_days (now : Int) (user : UserRec) (product : Product)
    (subscription : Subscription) (expiresAt : Option Int) (device_id : String)
    (h : subscription.status = .free) :
    (steadyResponse now user product subscription expiresAt device_id).days_left =
      none := by
  unfold steadyResponse steadyBase
  have h1 : ¬ (subscription.status = .premium ∨ subscription.status = .trial) := by
    simp [h]
  by_cases h2 : subscription.status = .free ∧ product.trial_enabled = false
  · simp [h1, h2]
  · simp [h1, h2]

/-! ### Claim theorems -/

/-- C5: a verify request whose resolved product has `is_active = false`
returns the blocked payload (valid = false, carrying the product name) and
performs no state mutation at all: the store, including any absent
`bound_device` of a fresh key and the subscription, is returned unchanged. -/
theorem verify_killswitch_no_mutation
    (now : Int) (st : Store) (api_key device_id : String) (r : KeyRecord)
    (hk : api_key ≠ "") (hd : device_id ≠ "")
    (hfind : findKey st api_key = some r)
    (hinactive : r.product.is_active = false) :
    serverVerify now st api_key device_id =
      ({valid := some false
        product := some r.product.name
        active := some false
        message := some "This product is no longer available."}, st) := by
  unfold serverVerify
  rw [hfind]
  simp [hk, hd, hinactive]

/-- C8: a verify request whose token resolves to no api-key row returns the
payload `{valid: false, error: "Invalid API key"}` with HTTP status 200 (a
normal response, not an HTTP-level error) and leaves the store untouched, so
repeated calls with unknown tokens are idempotent. -/
theorem verify_unknown_key_no_mutation
    (now : Int) (st : Store) (api_key device_id : String)
    (hk : api_key ≠ "") (hd : device_id ≠ "")
    (hfind : findKey st api_key = none) :
    serverVerify now st api_key device_id =
      ({valid := some false, error := some "Invalid API key"}, st) := by
  unfold serverVerify
  rw [hfind]
  simp [hk, hd]

/-- C3: each state-mutating subscription write of the core — the trial
activation and the expiry reversion issued by verify, and the admin override
in its two specified forms (set premium for N days with N positive, or reset
to free) — produces a subscription satisfying the invariant
`status = free → expires_at = null` and
`status ∈ {trial, premium} → expires_at ≠ null`. -/
theorem mutations_preserve_SubInv (now : Int) (s : Subscription)
    (sopt : Option Subscription) (N : Int) (days : Option Int) (hN : 0 < N) :
    SubInv (trialActivatedSub now s) ∧ SubInv (revertedSub s) ∧
    SubInv (adminOverride now .premium (some N) sopt) ∧
    SubInv (adminOverride now .free days sopt) := by
  have hN0 : N ≠ 0 := by omega
  refine ⟨⟨?_, ?_⟩, ⟨?_, ?_⟩, ⟨?_, ?_⟩, ⟨?_, ?_⟩⟩
  · intro h; simp [trialActivatedSub] at h
  · intro _; simp [trialActivatedSub]
  · intro _; simp [revertedSub]
  · intro h; rcases h with h | h <;> simp [revertedSub] at h
  · intro h
    simp [adminOverride, adminUpdatedSub, ensureSubscription, daysTruthy, hN0] at h
  · intro _
    simp [adminOverride, adminUpdatedSub, ensureSubscription, daysTruthy, hN0]
  · intro _
    simp [adminOverride, adminUpdatedSub, ensureSubscription, daysTruthy]
  · intro h
    simp [adminOverride, adminUpdatedSub, ensureSubscription, daysTruthy] at h

/-- C4: the code's binding write is not a conditional single-record write.
Interleaving two concurrent first-use binds of the same unbound key (devices
"D1" and "D2") so that both read before either write lands makes both
clients report a successful bind — neither observes a conflict — and the
second write silently overwrites the first, leaving "D2" bound.  This
contradicts the required exactly-one-winner/loser-sees-conflict outcome. -/
theorem racedBind_double_bind :
    racedBind none "D1" "D2" =
      (BindOutcome.bound "D1", BindOutcome.bound "D2", some "D2") := by
  rfl

theorem updateDeviceFn_no_match (st : Store) (k : String) (d : Option String)
    (h : st.keys.filter (fun x => decide (x.key_value = k)) = []) :
    updateDeviceFn st k d = st := by
  unfold updateDeviceFn
  have hnone : ∀ r ∈ st.keys, ¬ (r.key_value = k) := by
    intro r hr hrk
    have hmem : r ∈ st.keys.filter (fun x => decide (x.key_value = k)) :=
      List.mem_filter.mpr ⟨hr, decide_eq_true hrk⟩
    rw [h] at hmem
    cases hmem
  have : st.keys.map (fun r => if r.key_value = k then setDevice d r else r) = st.keys := by
    conv_rhs => rw [← List.map_id st.keys]
    apply List.map_congr_left
    intro a ha
    simp [hnone a ha]
  rw [this]

theorem updateDeviceFn_idem (st : Store) (k : String) (d : Option String) :
    updateDeviceFn (updateDeviceFn st k d) k d = updateDeviceFn st k d := by
  unfold updateDeviceFn
  simp only [List.map_map]
  congr 1
  apply List.map_congr_left
  intro a _
  by_cases h : a.key_value = k
  · simp [Function.comp, h, setDevice]
  · simp [Function.comp, h]

theorem filter_updateDeviceFn (st : Store) (k : String) (d : Option String) :
    (updateDeviceFn st k d).keys.filter (fun x => decide (x.key_value = k)) =
      (st.keys.filter (fun x => decide (x.key_value = k))).map
        (fun r => if r.key_value = k then setDevice d r else r) := by
  have hg : ∀ r : KeyRecord,
      ((fun r => if r.key_value = k then setDevice d r else r) r).key_value = r.key_value := by
    intro r
    by_cases hr : r.key_value = k
    · simp [hr, setDevice]
    · simp [hr]
  exact filter_map_keyfix st.keys k _ hg

/-- C9: release-device on a token matching exactly one api-key row reports
success and unbinds the row; it is idempotent — a second release returns the
same response and the same store, so releasing an already-unbound key
succeeds — and on a token matching no row it reports a 404 not-found error
and leaves the store unchanged. -/
theorem release_device_spec (st : Store) (api_key : String) (hk : api_key ≠ "") :
    (∀ r, st.keys.filter (fun x => decide (x.key_value = api_key)) = [r] →
      releaseDevice st api_key =
        ({success := some true
          message := some "Device binding released successfully"},
         updateDeviceFn st api_key none) ∧
      findKey (releaseDevice st api_key).2 api_key = some (setDevice none r) ∧
      releaseDevice (releaseDevice st api_key).2 api_key = releaseDevice st api_key) ∧
    (st.keys.filter (fun x => decide (x.key_value = api_key)) = [] →
      releaseDevice st api_key =
        ({httpStatus := 404, error := some "API key not found"}, st)) := by
  constructor
  · intro r hfilter
    have hrk : r.key_value = api_key := by
      have hmem : r ∈ st.keys.filter (fun x => decide (x.key_value = api_key)) := by
        rw [hfilter]; exact List.mem_singleton.mpr rfl
      exact of_decide_eq_true (List.mem_filter.mp hmem).2
    have hfind : findKey st api_key = some r := by
      unfold findKey
      rw [hfilter]
    have h1 : releaseDevice st api_key =
        ({success := some true
          message := some "Device binding released successfully"},
         updateDeviceFn st api_key none) := by
      unfold releaseDevice
      rw [hfilter]
      simp [hk]
    refine ⟨h1, ?_, ?_⟩
    · rw [h1]
      exact findKey_updateDeviceFn st api_key none r hfind
    · rw [h1]
      have hfilter2 : (updateDeviceFn st api_key none).keys.filter
          (fun x => decide (x.key_value = api_key)) = [setDevice none r] := by
        rw [filter_updateDeviceFn, hfilter]
        simp [hrk]
      unfold releaseDevice
      rw [hfilter2]
      simp [hk, updateDeviceFn_idem]
  · intro hfilter
    unfold releaseDevice
    rw [hfilter]
    simp [hk, updateDeviceFn_no_match st api_key none hfilter]

theorem steadyResponse_days (now : Int) (user : UserRec) (product : Product)
    (subscription : Subscription) (expiresAt : Option Int) (device_id : String) (v : Int)
    (hEq : (subscription.status = .premium ∨ subscription.status = .trial) →
      expiresAt = subscription.expires_at)
    (h : (steadyResponse now user product subscription expiresAt device_id).days_left =
      some v) :
    0 ≤ v ∧
    ∀ e, (steadyResponse now user product subscription expiresAt device_id).expires_at =
      some e → v = max 0 (intCeilDiv (e - now) 86400) := by
  unfold steadyResponse steadyBase at h ⊢
  by_cases h1 : subscription.status = .premium ∨ subscription.status = .trial
  · have h2 : ¬ (subscription.status = .free ∧ product.trial_enabled = false) := by
      rcases h1 with h1 | h1 <;> simp [h1]
    simp only [h1, if_pos, h2, if_neg, not_false_iff] at h ⊢
    simp at h
    constructor
    · omega
    · intro e he
      rw [hEq h1, he] at h
      simp [jsDateNum] at h
      omega
  · by_cases h3 : subscription.status = .free ∧ product.trial_enabled = false
    · simp [h1, h3] at h
    · simp [h1, h3] at h

theorem serverVerifyCore_days (now : Int) (st : Store) (keyData : KeyRecord)
    (api_key device_id : String) (v : Int)
    (h : (serverVerifyCore now st keyData api_key device_id).1.days_left = some v) :
    0 ≤ v ∧
    ∀ e, (serverVerifyCore now st keyData api_key device_id).1.expires_at = some e →
      v = max 0 (intCeilDiv (e - now) 86400) := by
  unfold serverVerifyCore at h ⊢
  by_cases h1 : keyData.subscription.status = .free ∧ keyData.product.trial_enabled = true ∧
      keyData.subscription.trial_used = false
  · simp only [h1, if_pos] at h ⊢
    simp [trialResponse] at h ⊢
    constructor
    · omega
    · have hint : intCeilDiv 86400 86400 = (1 : Int) := by decide
      rw [hint]
      have hmax : (0 : Int) ⊔ 1 = 1 := by decide
      rw [hmax]
      omega
  · by_cases h2 : (keyData.subscription.status = .trial ∨
        keyData.subscription.status = .premium) ∧
        isExpired keyData.subscription.expires_at now = true
    · simp only [h1, h2, if_neg, if_pos, not_false_iff] at h ⊢
      refine steadyResponse_days now keyData.user keyData.product
        (revertedSub keyData.subscription) keyData.subscription.expires_at device_id v ?_ h
      intro hs
      rcases hs with hs | hs <;> simp [revertedSub] at hs
    · simp only [h1, h2, if_neg, not_false_iff] at h ⊢
      refine steadyResponse_days now keyData.user keyData.product
        keyData.subscription keyData.subscription.expires_at device_id v ?_ h
      intro _
      rfl

/-- C7: whenever a verify response carries a `days_left` field its value is
never negative, and whenever the response also carries an `expires_at`
timestamp, `days_left = max 0 (ceil((expires_at - now) / 86400 s))`. -/
theorem verify_days_left_formula (now : Int) (st : Store) (api_key device_id : String)
    (v : Int) (h : (serverVerify now st api_key device_id).1.days_left = some v) :
    0 ≤ v ∧
    ∀ e, (serverVerify now st api_key device_id).1.expires_at = some e →
      v = max 0 (intCeilDiv (e - now) 86400) := by
  by_cases h0 : api_key = "" ∨ device_id = ""
  · have hsv : (serverVerify now st api_key device_id).1.days_left = none := by
      unfold serverVerify
      simp [h0]
    rw [hsv] at h
    cases h
  · cases hfk : findKey st api_key with
    | none =>
      have hsv : (serverVerify now st api_key device_id).1.days_left = none := by
        unfold serverVerify
        rw [hfk]
        simp [h0]
      rw [hsv] at h
      cases h
    | some keyData =>
      by_cases hact : keyData.product.is_active = false
      · have hsv : (serverVerify now st api_key device_id).1.days_left = none := by
          unfold serverVerify
          rw [hfk]
          simp [h0, hact]
        rw [hsv] at h
        cases h
      · cases hdev : keyData.device_id with
        | none =>
          have hsv : serverVerify now st api_key device_id =
              serverVerifyCore now (updateDeviceFn st api_key (some device_id)) keyData
                api_key device_id := by
            unfold serverVerify
            rw [hfk]
            simp [h0, hact, hdev]
          rw [hsv] at h ⊢
          exact serverVerifyCore_days now _ keyData api_key device_id v h
        | some d =>
          by_cases hde : d = device_id
          · have hsv : serverVerify now st api_key device_id =
                serverVerifyCore now st keyData api_key device_id := by
              unfold serverVerify
              rw [hfk]
              simp [h0, hact, hdev, hde]
            rw [hsv] at h ⊢
            exact serverVerifyCore_days now st keyData api_key device_id v h
          · have hsv : (serverVerify now st api_key device_id).1.days_left = none := by
              unfold serverVerify
              rw [hfk]
              simp [h0, hact, hdev, hde]
            rw [hsv] at h
            cases h

theorem serverVerify_unbound_eq (now : Int) (st : Store) (api_key device_id : String)
    (keyData : KeyRecord)
    (h0 : ¬ (api_key = "" ∨ device_id = ""))
    (hfk : findKey st api_key = some keyData)
    (hact : ¬ keyData.product.is_active = false)
    (hdev : keyData.device_id = none) :
    serverVerify now st api_key device_id =
      serverVerifyCore now (updateDeviceFn st api_key (some device_id)) keyData
        api_key device_id := by
  unfold serverVerify
  rw [hfk]
  simp [h0, hact, hdev]

theorem serverVerify_bound_eq (now : Int) (st : Store) (api_key device_id : String)
    (keyData : KeyRecord)
    (h0 : ¬ (api_key = "" ∨ device_id = ""))
    (hfk : findKey st api_key = some keyData)
    (hact : ¬ keyData.product.is_active = false)
    (hdev : keyData.device_id = some device_id) :
    serverVerify now st api_key device_id =
      serverVerifyCore now st keyData api_key device_id := by
  unfold serverVerify
  rw [hfk]
  simp [h0, hact, hdev]

theorem serverVerifyCore_trial (now : Int) (st : Store) (keyData : KeyRecord)
    (api_key device_id : String)
    (hfree : keyData.subscription.status = .free)
    (hte : keyData.product.trial_enabled = true)
    (hused : keyData.subscription.trial_used = false) :
    serverVerifyCore now st keyData api_key device_id =
      (trialResponse now keyData device_id,
       updateSubFn st api_key (trialActivatedSub now)) := by
  unfold serverVerifyCore
  simp [hfree, hte, hused]

theorem serverVerifyCore_revert (now : Int) (st : Store) (keyData : KeyRecord)
    (api_key device_id : String)
    (hst : keyData.subscription.status = .trial ∨ keyData.subscription.status = .premium)
    (hexp : isExpired keyData.subscription.expires_at now = true) :
    serverVerifyCore now st keyData api_key device_id =
      (steadyResponse now keyData.user keyData.product (revertedSub keyData.subscription)
        keyData.subscription.expires_at device_id,
       updateSubFn st api_key revertedSub) := by
  have hnotfree : ¬ keyData.subscription.status = .free := by
    rcases hst with hst | hst <;> simp [hst]
  unfold serverVerifyCore
  simp [hnotfree, hst, hexp]

theorem serverVerifyCore_noop (now : Int) (st : Store) (keyData : KeyRecord)
    (api_key device_id : String)
    (hnotrial : ¬ (keyData.subscription.status = .free ∧
      keyData.product.trial_enabled = true ∧ keyData.subscription.trial_used = false))
    (hnorevert : ¬ ((keyData.subscription.status = .trial ∨
      keyData.subscription.status = .premium) ∧
      isExpired keyData.subscription.expires_at now = true)) :
    serverVerifyCore now st keyData api_key device_id =
      (steadyResponse now keyData.user keyData.product keyData.subscription
        keyData.subscription.expires_at device_id, st) := by
  unfold serverVerifyCore
  simp [hnotrial, hnorevert]

theorem serverVerify_no_transition (now : Int) (st : Store) (api_key device_id : String)
    (r1 : KeyRecord)
    (h0 : ¬ (api_key = "" ∨ device_id = ""))
    (hfk : findKey st api_key = some r1)
    (hact : ¬ r1.product.is_active = false)
    (hdev : r1.device_id = some device_id)
    (hnotrial : ¬ (r1.subscription.status = .free ∧
      r1.product.trial_enabled = true ∧ r1.subscription.trial_used = false))
    (hnorevert : ¬ ((r1.subscription.status = .trial ∨
      r1.subscription.status = .premium) ∧
      isExpired r1.subscription.expires_at now = true)) :
    serverVerify now st api_key device_id =
      (steadyResponse now r1.user r1.product r1.subscription r1.subscription.expires_at
        device_id, st) := by
  rw [serverVerify_bound_eq now st api_key device_id r1 h0 hfk hact hdev]
  exact serverVerifyCore_noop now st r1 api_key device_id hnotrial hnorevert

theorem serverVerify_conflict_eq (now : Int) (st : Store) (api_key device_id : String)
    (keyData : KeyRecord) (d : String)
    (h0 : ¬ (api_key = "" ∨ device_id = ""))
    (hfk : findKey st api_key = some keyData)
    (hact : ¬ keyData.product.is_active = false)
    (hdev : keyData.device_id = some d)
    (hne : ¬ d = device_id) :
    serverVerify now st api_key device_id =
      ({valid := some false
        error := some "API key is bound to a different device"
        message := some "Use /release-device to unbind this key first."}, st) := by
  unfold serverVerify
  rw [hfk]
  simp [h0, hact, hdev, hne]

/-- C1: for a verify request resolving to a record with a `free` subscription,
`trial_enabled` product, `trial_used = false`, an active product and a passing
device check, verify activates the trial: the stored subscription becomes
`trial` with `expires_at = now + 1 day` and `trial_used = true`, the response
is valid with status "trial", `days_left = 1` and that expiry; and a repeated
verify at the same instant mutates nothing further and still reports
status "trial" (no second activation). -/
theorem verify_trial_activation
    (now : Int) (st : Store) (api_key device_id : String) (r : KeyRecord)
    (hk : api_key ≠ "") (hd : device_id ≠ "")
    (hfind : findKey st api_key = some r)
    (hactive : r.product.is_active = true)
    (hdev : r.device_id = none ∨ r.device_id = some device_id)
    (hfree : r.subscription.status = .free)
    (hte : r.product.trial_enabled = true)
    (hused : r.subscription.trial_used = false) :
    (serverVerify now st api_key device_id).1.valid = some true ∧
    (serverVerify now st api_key device_id).1.status = some "trial" ∧
    (serverVerify now st api_key device_id).1.days_left = some 1 ∧
    (serverVerify now st api_key device_id).1.expires_at = some (now + 86400) ∧
    (∃ r1, findKey (serverVerify now st api_key device_id).2 api_key = some r1 ∧
      r1.subscription = {status := SubStatus.trial
                         expires_at := some (now + 86400)
                         trial_used := true}) ∧
    (serverVerify now (serverVerify now st api_key device_id).2 api_key device_id).2 =
      (serverVerify now st api_key device_id).2 ∧
    (serverVerify now (serverVerify now st api_key device_id).2
      api_key device_id).1.status = some "trial" := by
  have h0 : ¬ (api_key = "" ∨ device_id = "") := by simp [hk, hd]
  have hact : ¬ r.product.is_active = false := by simp [hactive]
  obtain ⟨st1, hsv1, r1, hfk1, hr1dev, hr1prod, hr1sub⟩ :
      ∃ st1, serverVerify now st api_key device_id =
        (trialResponse now r device_id, st1) ∧
      ∃ r1, findKey st1 api_key = some r1 ∧ r1.device_id = some device_id ∧
        r1.product = r.product ∧
        r1.subscription = {status := SubStatus.trial
                           expires_at := some (now + 86400)
                           trial_used := true} := by
    rcases hdev with hdev | hdev
    · refine ⟨updateSubFn (updateDeviceFn st api_key (some device_id)) api_key
        (trialActivatedSub now), ?_,
        setSub (trialActivatedSub now) (setDevice (some device_id) r), ?_, rfl, rfl, rfl⟩
      · rw [serverVerify_unbound_eq now st api_key device_id r h0 hfind hact hdev]
        exact serverVerifyCore_trial now _ r api_key device_id hfree hte hused
      · exact findKey_updateSubFn _ api_key _ _
          (findKey_updateDeviceFn st api_key (some device_id) r hfind)
    · refine ⟨updateSubFn st api_key (trialActivatedSub now), ?_,
        setSub (trialActivatedSub now) r, ?_, hdev, rfl, rfl⟩
      · rw [serverVerify_bound_eq now st api_key device_id r h0 hfind hact hdev]
        exact serverVerifyCore_trial now st r api_key device_id hfree hte hused
      · exact findKey_updateSubFn st api_key _ r hfind
  have hnotrial : ¬ (r1.subscription.status = .free ∧
      r1.product.trial_enabled = true ∧ r1.subscription.trial_used = false) := by
    rw [hr1sub]
    simp
  have hnorevert : ¬ ((r1.subscription.status = .trial ∨
      r1.subscription.status = .premium) ∧
      isExpired r1.subscription.expires_at now = true) := by
    rw [hr1sub]
    simp [isExpired]
  have hact1 : ¬ r1.product.is_active = false := by
    rw [hr1prod]
    simp [hactive]
  have h2 := serverVerify_no_transition now st1 api_key device_id r1 h0 hfk1 hact1
    hr1dev hnotrial hnorevert
  simp only [hsv1]
  refine ⟨rfl, rfl, rfl, rfl, ⟨r1, hfk1, hr1sub⟩, ?_, ?_⟩
  · simp only [h2]
  · simp only [h2]
    rw [steadyResponse_status, hr1sub]
    rfl

/-- C2 (amended): for a verify request resolving to a `trial` or `premium`
subscription whose `expires_at` is strictly earlier than `now`, provided the
product is active and the device check passes, verify reverts the stored
subscription to `free` with `expires_at = null` before any days-left figure
is computed, and the response is valid with status "free" and no `days_left`
field. -/
theorem verify_expiry_reversion
    (now : Int) (st : Store) (api_key device_id : String) (r : KeyRecord)
    (hk : api_key ≠ "") (hd : device_id ≠ "")
    (hfind : findKey st api_key = some r)
    (hactive : r.product.is_active = true)
    (hdev : r.device_id = none ∨ r.device_id = some device_id)
    (hst : r.subscription.status = .trial ∨ r.subscription.status = .premium)
    (e : Int) (he : r.subscription.expires_at = some e) (hlt : e < now) :
    (serverVerify now st api_key device_id).1.valid = some true ∧
    (serverVerify now st api_key device_id).1.status = some "free" ∧
    (serverVerify now st api_key device_id).1.days_left = none ∧
    ∃ r1, findKey (serverVerify now st api_key device_id).2 api_key = some r1 ∧
      r1.subscription.status = SubStatus.free ∧
      r1.subscription.expires_at = none := by
  have h0 : ¬ (api_key = "" ∨ device_id = "") := by simp [hk, hd]
  have hact : ¬ r.product.is_active = false := by simp [hactive]
  have hexp : isExpired r.subscription.expires_at now = true := by
    rw [he]
    simp [isExpired, hlt]
  obtain ⟨st1, hsv1, r1, hfk1, hr1sub⟩ :
      ∃ st1, serverVerify now st api_key device_id =
        (steadyResponse now r.user r.product (revertedSub r.subscription)
          r.subscription.expires_at device_id, st1) ∧
      ∃ r1, findKey st1 api_key = some r1 ∧
        r1.subscription = revertedSub r.subscription := by
    rcases hdev with hdev | hdev
    · refine ⟨updateSubFn (updateDeviceFn st api_key (some device_id)) api_key revertedSub,
        ?_, setSub revertedSub (setDevice (some device_id) r), ?_, rfl⟩
      · rw [serverVerify_unbound_eq now st api_key device_id r h0 hfind hact hdev]
        exact serverVerifyCore_revert now _ r api_key device_id hst hexp
      · exact findKey_updateSubFn _ api_key _ _
          (findKey_updateDeviceFn st api_key (some device_id) r hfind)
    · refine ⟨updateSubFn st api_key revertedSub, ?_, setSub revertedSub r, ?_, rfl⟩
      · rw [serverVerify_bound_eq now st api_key device_id r h0 hfind hact hdev]
        exact serverVerifyCore_revert now st r api_key device_id hst hexp
      · exact findKey_updateSubFn st api_key _ r hfind
  simp only [hsv1]
  refine ⟨steadyResponse_valid now r.user r.product (revertedSub r.subscription)
    r.subscription.expires_at device_id, ?_, ?_, r1, hfk1, ?_, ?_⟩
  · rw [steadyResponse_status]
    rfl
  · exact steadyResponse_free_days now r.user r.product (revertedSub r.subscription)
      r.subscription.expires_at device_id rfl
  · rw [hr1sub]
    rfl
  · rw [hr1sub]
    rfl

def stExpiredBlocked : Store :=
  ⟨[⟨"sk_2", some "D1", ⟨some "Bob", "bob@example.com"⟩,
     ⟨"Data Interceptor", none, false, true, 30⟩,
     ⟨.premium, some 50, true⟩⟩]⟩

def stExpiredConflict : Store :=
  ⟨[⟨"sk_2c", some "D1", ⟨some "Bob", "bob@example.com"⟩,
     ⟨"Scraper Pro", none, true, true, 30⟩,
     ⟨.premium, some 50, true⟩⟩]⟩

/-- C2 counterexample: a verify request whose resolved subscription is
`premium` with `expires_at = 50 < now = 100` does not revert anything and
does not report status "free" when the product is disabled (the kill switch
answers first) or when the presented device conflicts with the bound one
(the conflict answers first); in both cases the store is unchanged, so the
claim as stated (without the product-active and device-check guards)
fails. -/
theorem verify_expiry_reversion_counterexample :
    (¬ ((serverVerify 100 stExpiredBlocked "sk_2" "D1").1.status = some "free") ∧
      (serverVerify 100 stExpiredBlocked "sk_2" "D1").2 = stExpiredBlocked) ∧
    (¬ ((serverVerify 100 stExpiredConflict "sk_2c" "D2").1.status = some "free") ∧
      (serverVerify 100 stExpiredConflict "sk_2c" "D2").2 = stExpiredConflict) := by
  refine ⟨⟨?_, ?_⟩, ?_, ?_⟩
  · decide
  · decide
  · decide
  · decide

/-- C6: a fresh key (no bound device) verified with device "D1" becomes
bound to "D1"; a subsequent verify presenting "D2" (before any release)
returns the device-conflict payload with `valid = false` and leaves the
store — the "D1" binding and every subscription field — exactly as it was. -/
theorem verify_device_bind_then_conflict
    (now now2 : Int) (st : Store) (api_key : String) (r : KeyRecord)
    (hk : api_key ≠ "")
    (hfind : findKey st api_key = some r)
    (hactive : r.product.is_active = true)
    (hdev : r.device_id = none) :
    (∃ r1, findKey (serverVerify now st api_key "D1").2 api_key = some r1 ∧
      r1.device_id = some "D1") ∧
    serverVerify now2 (serverVerify now st api_key "D1").2 api_key "D2" =
      ({valid := some false
        error := some "API key is bound to a different device"
        message := some "Use /release-device to unbind this key first."},
       (serverVerify now st api_key "D1").2) := by
  have h0 : ¬ (api_key = "" ∨ ("D1" : String) = "") := by simp [hk]
  have h0b : ¬ (api_key = "" ∨ ("D2" : String) = "") := by simp [hk]
  have hact : ¬ r.product.is_active = false := by simp [hactive]
  have hbound := serverVerify_unbound_eq now st api_key "D1" r h0 hfind hact hdev
  have hfkDev : findKey (updateDeviceFn st api_key (some "D1")) api_key =
      some (setDevice (some "D1") r) :=
    findKey_updateDeviceFn st api_key (some "D1") r hfind
  have hsplit := serverVerifyCore_snd now (updateDeviceFn st api_key (some "D1")) r
    api_key "D1"
  obtain ⟨r1, hfk1, hr1dev, hr1prod⟩ :
      ∃ r1, findKey (serverVerify now st api_key "D1").2 api_key = some r1 ∧
        r1.device_id = some "D1" ∧ r1.product = r.product := by
    rw [hbound]
    rcases hsplit with hs | hs | hs
    · exact ⟨setDevice (some "D1") r, by rw [hs]; exact hfkDev, rfl, rfl⟩
    · exact ⟨setSub (trialActivatedSub now) (setDevice (some "D1") r),
        by rw [hs]; exact findKey_updateSubFn _ api_key _ _ hfkDev, rfl, rfl⟩
    · exact ⟨setSub revertedSub (setDevice (some "D1") r),
        by rw [hs]; exact findKey_updateSubFn _ api_key _ _ hfkDev, rfl, rfl⟩
  refine ⟨⟨r1, hfk1, hr1dev⟩, ?_⟩
  have hact1 : ¬ r1.product.is_active = false := by
    rw [hr1prod]
    simp [hactive]
  exact serverVerify_conflict_eq now2 (serverVerify now st api_key "D1").2 api_key "D2"
    r1 "D1" h0b hfk1 hact1 hr1dev (by decide)

theorem edgeSteadyResponse_eq (now : Int) (user : UserRec) (product : Product)
    (subscription : Subscription) (expiresAt : Option Int) (device_id : String)
    (h : (subscription.status = .premium ∨ subscription.status = .trial) →
      ∃ e, expiresAt = some e) :
    edgeSteadyResponse now user product subscription expiresAt device_id =
      some (steadyResponse now user product subscription expiresAt device_id) := by
  unfold edgeSteadyResponse steadyResponse
  by_cases h1 : subscription.status = .premium ∨ subscription.status = .trial
  · obtain ⟨e, he⟩ := h h1
    subst he
    have h2 : ¬ (subscription.status = .free ∧ product.trial_enabled = false) := by
      rcases h1 with h1 | h1 <;> simp [h1]
    simp [h1, h2, jsDateNum]
  · by_cases h3 : subscription.status = .free ∧ product.trial_enabled = false
    · simp [h1, h3]
    · simp [h1, h3]

theorem edgeVerifyCore_eq (now : Int) (st : Store) (keyData : KeyRecord)
    (api_key device_id : String)
    (hr : (keyData.subscription.status = .trial ∨
      keyData.subscription.status = .premium) →
      keyData.subscription.expires_at ≠ none) :
    edgeVerifyCore now st keyData api_key device_id =
      (some (serverVerifyCore now st keyData api_key device_id).1,
       (serverVerifyCore now st keyData api_key device_id).2) := by
  unfold edgeVerifyCore serverVerifyCore
  by_cases h1 : keyData.subscription.status = .free ∧ keyData.product.trial_enabled = true ∧
      keyData.subscription.trial_used = false
  · simp only [if_pos h1]
  · by_cases h2 : (keyData.subscription.status = .trial ∨
        keyData.subscription.status = .premium) ∧
        isExpired keyData.subscription.expires_at now = true
    · have hside : ((revertedSub keyData.subscription).status = .premium ∨
          (revertedSub keyData.subscription).status = .trial) →
          ∃ e, keyData.subscription.expires_at = some e := by
        intro hs
        rcases hs with hs | hs <;> simp [revertedSub] at hs
      simp only [if_neg h1, if_pos h2]
      rw [edgeSteadyResponse_eq now keyData.user keyData.product
        (revertedSub keyData.subscription) keyData.subscription.expires_at device_id hside]
    · have hside : (keyData.subscription.status = .premium ∨
          keyData.subscription.status = .trial) →
          ∃ e, keyData.subscription.expires_at = some e := by
        intro hs
        cases hea : keyData.subscription.expires_at with
        | none => exact absurd hea (hr (Or.symm hs))
        | some e => exact ⟨e, rfl⟩
      simp only [if_neg h1, if_neg h2]
      rw [edgeSteadyResponse_eq now keyData.user keyData.product
        keyData.subscription keyData.subscription.expires_at device_id hside]

/-- C10 (amended): on every store state whose rows satisfy the invariant that
a `trial`/`premium` subscription carries a non-null `expires_at`, the Express
`/verify` handler and the served edge function compute the same response and
leave the store in the same state. -/
theorem edge_server_verify_agree (now : Int) (st : Store) (api_key device_id : String)
    (hinv : ∀ r ∈ st.keys, (r.subscription.status = .trial ∨
      r.subscription.status = .premium) → r.subscription.expires_at ≠ none) :
    edgeServe now st api_key device_id = serverVerify now st api_key device_id := by
  have hmain : edgeHandleVerify now st api_key device_id =
      (some (serverVerify now st api_key device_id).1,
       (serverVerify now st api_key device_id).2) := by
    unfold edgeHandleVerify serverVerify
    by_cases h0 : api_key = "" ∨ device_id = ""
    · simp [h0]
    · simp only [h0, if_neg, not_false_iff]
      cases hfk : findKey st api_key with
      | none => simp
      | some keyData =>
        have hr := hinv keyData (findKey_mem st api_key keyData hfk)
        by_cases hact : keyData.product.is_active = false
        · simp [hact]
        · simp only [hact, if_neg, not_false_iff]
          cases keyData.device_id with
          | none => exact edgeVerifyCore_eq now _ keyData api_key device_id hr
          | some d =>
            by_cases hde : d = device_id
            · simp only [hde, if_pos]
              exact edgeVerifyCore_eq now st keyData api_key device_id hr
            · simp [hde]
  unfold edgeServe
  rw [hmain]

def stDegenerate : Store :=
  ⟨[⟨"sk_3", some "D1", ⟨none, "carol@example.com"⟩,
     ⟨"API Monitor", none, true, true, 15⟩,
     ⟨.trial, none, true⟩⟩]⟩

/-- C10 counterexample: on a store whose resolved subscription is `trial`
with a null `expires_at`, the Express handler coerces the null to 0 inside
`(expiresAt - now)` and answers a valid response with `days_left = 0`, while
the edge function throws a TypeError on `expiresAt!.getTime()` and is served
as a 500 "Internal server error" — the two implementations do not return the
same response on this state, so the claim fails without the invariant
restriction. -/
theorem edge_server_verify_differ :
    (edgeServe 100 stDegenerate "sk_3" "D1").1 ≠
      (serverVerify 100 stDegenerate "sk_3" "D1").1 := by
  decide

/-! ### Concrete stores and witnesses -/

def recFresh : KeyRecord :=
  ⟨"sk_1", none, ⟨some "Alice", "alice@example.com"⟩,
   ⟨"Scraper Pro", none, true, true, 30⟩, ⟨.free, none, false⟩⟩

def stFreshTrial : Store := ⟨[recFresh]⟩

/-- Witness for C1 at a fresh, trial-eligible key verified at time 0. -/
theorem verify_trial_activation_witness :
    (serverVerify 0 stFreshTrial "sk_1" "D1").1.valid = some true ∧
    (serverVerify 0 stFreshTrial "sk_1" "D1").1.status = some "trial" ∧
    (serverVerify 0 stFreshTrial "sk_1" "D1").1.days_left = some 1 ∧
    (serverVerify 0 stFreshTrial "sk_1" "D1").1.expires_at = some (0 + 86400) ∧
    (∃ r1, findKey (serverVerify 0 stFreshTrial "sk_1" "D1").2 "sk_1" = some r1 ∧
      r1.subscription = {status := SubStatus.trial
                         expires_at := some (0 + 86400)
                         trial_used := true}) ∧
    (serverVerify 0 (serverVerify 0 stFreshTrial "sk_1" "D1").2 "sk_1" "D1").2 =
      (serverVerify 0 stFreshTrial "sk_1" "D1").2 ∧
    (serverVerify 0 (serverVerify 0 stFreshTrial "sk_1" "D1").2 "sk_1" "D1").1.status =
      some "trial" :=
  verify_trial_activation 0 stFreshTrial "sk_1" "D1" recFresh (by decide) (by decide)
    (by decide) rfl (Or.inl rfl) rfl rfl rfl

def recPremExpired : KeyRecord :=
  ⟨"sk_4", some "D1", ⟨some "Alice", "a2@example.com"⟩,
   ⟨"Scraper Pro", none, true, true, 30⟩, ⟨.premium, some 50, true⟩⟩

def stPremExpired : Store := ⟨[recPremExpired]⟩

/-- Witness for C2 at an expired premium subscription verified at time 100. -/
theorem verify_expiry_reversion_witness :
    (serverVerify 100 stPremExpired "sk_4" "D1").1.valid = some true ∧
    (serverVerify 100 stPremExpired "sk_4" "D1").1.status = some "free" ∧
    (serverVerify 100 stPremExpired "sk_4" "D1").1.days_left = none ∧
    ∃ r1, findKey (serverVerify 100 stPremExpired "sk_4" "D1").2 "sk_4" = some r1 ∧
      r1.subscription.status = SubStatus.free ∧
      r1.subscription.expires_at = none :=
  verify_expiry_reversion 100 stPremExpired "sk_4" "D1" recPremExpired (by decide)
    (by decide) (by decide) rfl (Or.inr rfl) (Or.inr rfl) 50 rfl (by decide)

/-- Witness for C3 at concrete subscriptions and a 30-day premium grant. -/
theorem mutations_preserve_SubInv_witness :
    SubInv (trialActivatedSub 0 ⟨SubStatus.premium, some 50, true⟩) ∧
    SubInv (revertedSub ⟨SubStatus.premium, some 50, true⟩) ∧
    SubInv (adminOverride 0 .premium (some 30) none) ∧
    SubInv (adminOverride 0 .free none none) :=
  mutations_preserve_SubInv 0 ⟨SubStatus.premium, some 50, true⟩ none 30 none (by decide)

def recBlocked : KeyRecord :=
  ⟨"sk_5", none, ⟨none, "e@example.com"⟩,
   ⟨"Data Interceptor", none, false, false, 30⟩, ⟨.free, none, false⟩⟩

def stBlocked : Store := ⟨[recBlocked]⟩

/-- Witness for C5 at a fresh key against a disabled product. -/
theorem verify_killswitch_no_mutation_witness :
    serverVerify 7 stBlocked "sk_5" "D9" =
      ({valid := some false
        product := some "Data Interceptor"
        active := some false
        message := some "This product is no longer available."}, stBlocked) :=
  verify_killswitch_no_mutation 7 stBlocked "sk_5" "D9" recBlocked (by decide)
    (by decide) (by decide) rfl

def recFresh6 : KeyRecord :=
  ⟨"sk_6", none, ⟨none, "f@example.com"⟩,
   ⟨"API Monitor", none, true, true, 15⟩, ⟨.free, none, true⟩⟩

def stFresh6 : Store := ⟨[recFresh6]⟩

/-- Witness for C6: bind "D1" first, then conflict on "D2". -/
theorem verify_device_bind_then_conflict_witness :
    (∃ r1, findKey (serverVerify 0 stFresh6 "sk_6" "D1").2 "sk_6" = some r1 ∧
      r1.device_id = some "D1") ∧
    serverVerify 1 (serverVerify 0 stFresh6 "sk_6" "D1").2 "sk_6" "D2" =
      ({valid := some false
        error := some "API key is bound to a different device"
        message := some "Use /release-device to unbind this key first."},
       (serverVerify 0 stFresh6 "sk_6" "D1").2) :=
  verify_device_bind_then_conflict 0 1 stFresh6 "sk_6" recFresh6 (by decide)
    (by decide) rfl rfl

def recPremFuture : KeyRecord :=
  ⟨"sk_7", some "D1", ⟨none, "g@example.com"⟩,
   ⟨"Scraper Pro", none, true, true, 30⟩, ⟨.premium, some 200000, true⟩⟩

def stPremFuture : Store := ⟨[recPremFuture]⟩

/-- Witness for C7 at a premium subscription with 199900 seconds left
(`days_left = 3`). -/
theorem verify_days_left_formula_witness :
    0 ≤ (3 : Int) ∧
    ∀ e, (serverVerify 100 stPremFuture "sk_7" "D1").1.expires_at = some e →
      (3 : Int) = max 0 (intCeilDiv (e - 100) 86400) :=
  verify_days_left_formula 100 stPremFuture "sk_7" "D1" 3 (by decide)

def stEmpty : Store := ⟨[]⟩

/-- Witness for C8 at an unknown token against the empty store. -/
theorem verify_unknown_key_no_mutation_witness :
    serverVerify 0 stEmpty "sk_x" "D1" =
      ({valid := some false, error := some "Invalid API key"}, stEmpty) :=
  verify_unknown_key_no_mutation 0 stEmpty "sk_x" "D1" (by decide) (by decide) rfl

def recRel : KeyRecord :=
  ⟨"sk_9", some "D1", ⟨none, "h@example.com"⟩,
   ⟨"Scraper Pro", none, true, true, 30⟩, ⟨.free, none, false⟩⟩

def stRel : Store := ⟨[recRel]⟩

/-- Witness for C9: release a bound key, observe success, the unbound row,
and idempotence of a second release. -/
theorem release_device_spec_witness :
    releaseDevice stRel "sk_9" =
      ({success := some true
        message := some "Device binding released successfully"},
       updateDeviceFn stRel "sk_9" none) ∧
    findKey (releaseDevice stRel "sk_9").2 "sk_9" = some (setDevice none recRel) ∧
    releaseDevice (releaseDevice stRel "sk_9").2 "sk_9" = releaseDevice stRel "sk_9" :=
  (release_device_spec stRel "sk_9" (by decide)).1 recRel (by decide)

def stAgree : Store :=
  ⟨[⟨"sk_10", some "D1", ⟨none, "i@example.com"⟩,
     ⟨"Scraper Pro", none, true, false, 30⟩, ⟨.premium, some 900000, true⟩⟩]⟩

/-- Witness for C10 (amended) at an invariant-satisfying premium store. -/
theorem edge_server_verify_agree_witness :
    edgeServe 100 stAgree "sk_10" "D1" = serverVerify 100 stAgree "sk_10" "D1" :=
  edge_server_verify_agree 100 stAgree "sk_10" "D1" (by decide)
